import Mathlib

/-!
Verification development for the `CommonMark/html.py` HTML renderer.

The Python source is shallowly embedded: pure helpers become Lean functions,
the mutable renderer state (`self.buf`, `self.last_out`, `self.disable_tags`)
becomes an explicit `RState` value threaded through the handlers, and the
event loop of `renderNodes` becomes a fold over a list of walker events that
returns `Except` (a raised Python exception becomes an `Except.error` carrying
the message and the state at the moment of the raise).
-/

namespace CMark

/-! ## String helpers (character-list based, so everything evaluates) -/

/-- Lower-casing used to embed `re.IGNORECASE` matching (ASCII, which covers
the scheme alphabets involved). -/
def lowerStr (s : String) : String := String.mk (s.toList.map Char.toLower)

/-- `pat` occurs as a prefix of `s` (embeds an `^`-anchored regex alternative). -/
def strStartsWith (s pat : String) : Bool := pat.toList.isPrefixOf s.toList

/-- Substring search at the character level: `pat` occurs somewhere in `l`
(embeds an unanchored regex alternative under `re.search`). -/
def hasSubstrL (pat : List Char) : List Char → Bool
  | [] => pat.isEmpty
  | c :: rest => pat.isPrefixOf (c :: rest) || hasSubstrL pat rest

/-- `pat` occurs somewhere in `s`. -/
def strContains (s pat : String) : Bool := hasSubstrL pat.toList s.toList

/-! ## The three module-level regexes of `html.py`

`reUnsafeProtocol = re.compile(r'^javascript:|vbscript:|file:|data:', re.IGNORECASE)`.
Regex alternation binds loosest, so the `^` anchor applies only to the first
alternative `javascript:`; under `re.search` the remaining three alternatives
match anywhere in the string. -/
def searchUnsafeProtocol (url : String) : Bool :=
  let l := (lowerStr url).toList
  "javascript:".toList.isPrefixOf l ||
  hasSubstrL "vbscript:".toList l ||
  hasSubstrL "file:".toList l ||
  hasSubstrL "data:".toList l

/-- `reSafeDataProtocol = re.compile(r'^data:image\/(?:png|gif|jpeg|webp)', re.IGNORECASE)`:
here the alternatives are grouped, so the whole pattern is anchored at the start. -/
def searchSafeDataProtocol (url : String) : Bool :=
  let l := (lowerStr url).toList
  "data:image/png".toList.isPrefixOf l ||
  "data:image/gif".toList.isPrefixOf l ||
  "data:image/jpeg".toList.isPrefixOf l ||
  "data:image/webp".toList.isPrefixOf l

/-- `potentially_unsafe(url)`: `re.search(reUnsafeProtocol, url) and not
re.search(reSafeDataProtocol, url)`. -/
def potentially_unsafe (url : String) : Bool :=
  searchUnsafeProtocol url && !searchSafeDataProtocol url

/-! ## `re.sub(reHtmlTag, '', s)` with `reHtmlTag = re.compile(r'\<[^>]*\>')`

`re.sub` removes every leftmost-first match: scanning left to right, a `<`
opens a candidate match that extends through the first subsequent `>` (the
body `[^>]*` cannot contain `>`); a completed match is dropped, while a
candidate that reaches the end of the string without a closing `>` is kept
verbatim (the regex does not match there).  `stripGo` performs exactly this
scan; its second argument holds the reversed characters of the open candidate
match, or `none` when no candidate is open. -/
def stripGo : List Char → Option (List Char) → List Char
  | [], none => []
  | [], some pend => pend.reverse
  | c :: rest, none =>
      if c = '<' then stripGo rest (some [c]) else c :: stripGo rest none
  | c :: rest, some pend =>
      if c = '>' then stripGo rest none else stripGo rest (some (c :: pend))

/-- The full substitution on strings. -/
def stripHtmlTags (s : String) : String := String.mk (stripGo s.toList none)

/-- A character list contains `>`. -/
def hasGtL (l : List Char) : Bool := l.any (fun c => c = '>')

/-- A character list contains a tag-shaped substring, i.e. a substring matched
by `\<[^>]*\>`.  Such a match exists iff some `<` is followed (anywhere later)
by some `>`: given such a pair, the first `>` after the `<` closes a match. -/
def containsTagL : List Char → Bool
  | [] => false
  | c :: rest => (c = '<' && hasGtL rest) || containsTagL rest

/-! ## `escape_xml` -/

/-- Modelled from the spec: `escape_xml` from `CommonMark.common` (not under
`src/`) is "the XML/HTML text-escaping primitive (mapping `&`, `<`, `>`, `"`
to entities) — consumed as a pure function"; per the Text contract it escapes
`&<>` and escapes the double quote only when its second argument is true. -/
def escape_xml (s : String) (quote : Bool) : String :=
  String.join (s.toList.map (fun c =>
    if c = '&' then "&amp;"
    else if c = '<' then "&lt;"
    else if c = '>' then "&gt;"
    else if c = '"' ∧ quote = true then "&quot;"
    else String.singleton c))

/-! ## `tag` -/

/-- `tag(name, attrs, selfclosing)`: helper function to produce an HTML tag. -/
def tag (name : String) (attrs : List (String × String)) (selfclosing : Bool) : String :=
  "<" ++ name ++
    String.join (attrs.map (fun attr => " " ++ attr.1 ++ "=\"" ++ attr.2 ++ "\"")) ++
    (if selfclosing then " /" else "") ++ ">"

/-! ## Python option dictionaries

Option values are arbitrary Python objects; the renderer reads them only
through truthiness (`self.options.get('safe')`, `self.options.get('sourcepos')`).
`PyVal` models the value shapes relevant here, `PyVal.truthy` models Python
truthiness, and `optGet` models `dict.get(key)` (returning `None` when the key
is absent). -/
inductive PyVal where
  | none : PyVal
  | bool : Bool → PyVal
  | int : Int → PyVal
  | str : String → PyVal
deriving DecidableEq

def PyVal.truthy : PyVal → Bool
  | .none => false
  | .bool b => b
  | .int n => n != 0
  | .str s => s != ""

def optGet (opts : List (String × PyVal)) (key : String) : PyVal :=
  match opts.find? (fun kv => kv.1 == key) with
  | some kv => kv.2
  | none => PyVal.none

/-! ## Nodes and walker events

Nodes are owned by the external tree; the renderer only reads the fields
below.  Python `None`/empty-string falsiness for `title`, `info`, `on_enter`,
`on_exit` is modelled by the empty string.  The renderer reads the parent
chain only as `node.parent.parent` followed by `.t` and
`.list_data.get('tight')` (in `renderParagraph`), so the back-reference is
embedded as the projection `grandparent : Option (type-tag × tight-flag)`,
`none` when `node.parent.parent is None`. -/
structure Node where
  t : String
  literal : String
  destination : String
  title : String
  info : String
  on_enter : String
  on_exit : String
  level : Nat
  listType : String
  listTight : Bool
  listStart : Option Int
  sourcepos : Option ((Nat × Nat) × (Nat × Nat))
  grandparent : Option (String × Bool)
deriving DecidableEq

/-- A node with the given type tag and all other fields at their neutral
values, used to build concrete test inputs. -/
def mkNode (t : String) : Node :=
  ⟨t, "", "", "", "", "", "", 0, "Bullet", false, none, none, none⟩

/-- A walker event: `{'entering': bool, 'node': node}`. -/
structure Event where
  entering : Bool
  node : Node
deriving DecidableEq

/-! ## The renderer and its per-call state -/

/-- `HtmlRenderer.__init__` stores the options mapping and the soft-break
text; fields are `(softbreak, options)`. -/
structure HtmlRenderer where
  softbreak : String
  options : List (String × PyVal)
deriving DecidableEq

/-- `HtmlRenderer.__init__(options)`: sets `softbreak = '\n'` and stores the
options mapping unvalidated.  Construction cannot fail. -/
def HtmlRenderer.init (options : List (String × PyVal)) : HtmlRenderer :=
  ⟨"\n", options⟩

/-- The per-render-call mutable state: `self.buf`, `self.last_out`,
`self.disable_tags` (fields in that order).  `disable_tags` is an `Int`
because Python integers may go negative; part of what is proved is that it
never does on well-formed event sequences. -/
structure RState where
  buf : String
  last_out : String
  disable_tags : Int
deriving DecidableEq

/-- The state installed at the top of `renderNodes`:
`self.buf = ''`, `self.last_out = '\n'`, `self.disable_tags = 0`. -/
def initialState : RState := ⟨"", "\n", 0⟩

/-- `HtmlRenderer.out(s)`: append `s` to the buffer, stripping tag-shaped
substrings while `disable_tags > 0`, and record `s` as the last output. -/
def RState.out (st : RState) (s : String) : RState :=
  if 0 < st.disable_tags then
    ⟨st.buf ++ stripHtmlTags s, s, st.disable_tags⟩
  else
    ⟨st.buf ++ s, s, st.disable_tags⟩

/-- `HtmlRenderer.cr()`: `if self.last_out != '\n': self.buf += '\n';
self.last_out = '\n'`. -/
def RState.cr (st : RState) : RState :=
  if st.last_out = "\n" then st else ⟨st.buf ++ "\n", "\n", st.disable_tags⟩

/-! ## `re.split(r'\s+', s)` (used by `renderCodeBlock` on the info string)

Python `\s` is `[ \t\n\r\v\f]`.  `re.split` on a whitespace-run separator
yields the fields between maximal whitespace runs, including an empty leading
field when the string starts with whitespace and an empty trailing field when
it ends with one (`re.split(r'\s+', '') == ['']`). -/
def isPyWs (c : Char) : Bool :=
  c = ' ' || c = '\t' || c = '\n' || c = '\r' || c = '\x0b' || c = '\x0c'

def pySplitWsL : List Char → List String
  | [] => [""]
  | c :: rest =>
    let r := pySplitWsL rest
    if isPyWs c then
      match rest with
      | c2 :: _ => if isPyWs c2 then r else "" :: r
      | [] => "" :: r
    else
      match r with
      | h :: t => String.mk (c :: h.toList) :: t
      | [] => [String.mk [c]]

def pySplitWs (s : String) : List String := pySplitWsL s.toList

/-! ## Per-node-type handlers

Each `renderX` method mutates only the render state, so it is embedded as a
function `HtmlRenderer → Node → attrs → entering → RState → RState`.  The
unused `event` parameter of the Python methods is dropped. -/

/-- `renderText`: `self.out(escape_xml(node.literal, False))`. -/
def HtmlRenderer.renderText (_r : HtmlRenderer) (node : Node)
    (_attrs : List (String × String)) (_entering : Bool) (st : RState) : RState :=
  st.out (escape_xml node.literal false)

/-- `renderSoftbreak`: `self.out(self.softbreak)`. -/
def HtmlRenderer.renderSoftbreak (r : HtmlRenderer) (_node : Node)
    (_attrs : List (String × String)) (_entering : Bool) (st : RState) : RState :=
  st.out r.softbreak

/-- `renderHardbreak`: `self.out(tag('br', [], True)); self.cr()`. -/
def HtmlRenderer.renderHardbreak (_r : HtmlRenderer) (_node : Node)
    (_attrs : List (String × String)) (_entering : Bool) (st : RState) : RState :=
  (st.out (tag "br" [] true)).cr

/-- `renderEmph`: `self.out(tag('em' if entering else '/em'))`. -/
def HtmlRenderer.renderEmph (_r : HtmlRenderer) (_node : Node)
    (_attrs : List (String × String)) (entering : Bool) (st : RState) : RState :=
  st.out (tag (if entering then "em" else "/em") [] false)

/-- `renderStrong`: `self.out(tag('strong' if entering else '/strong'))`. -/
def HtmlRenderer.renderStrong (_r : HtmlRenderer) (_node : Node)
    (_attrs : List (String × String)) (entering : Bool) (st : RState) : RState :=
  st.out (tag (if entering then "strong" else "/strong") [] false)

/-- `renderHtmlInline`: the raw-HTML placeholder under safe mode, the literal
verbatim otherwise. -/
def HtmlRenderer.renderHtmlInline (r : HtmlRenderer) (node : Node)
    (_attrs : List (String × String)) (_entering : Bool) (st : RState) : RState :=
  if (optGet r.options "safe").truthy then
    st.out "<!-- raw HTML omitted -->"
  else
    st.out node.literal

/-- `renderCustomInline`: emit `on_enter`/`on_exit` when set (Python
truthiness on the literal). -/
def HtmlRenderer.renderCustomInline (_r : HtmlRenderer) (node : Node)
    (_attrs : List (String × String)) (entering : Bool) (st : RState) : RState :=
  if entering ∧ node.on_enter ≠ "" then st.out node.on_enter
  else if ¬ entering ∧ node.on_exit ≠ "" then st.out node.on_exit
  else st

/-- `renderLink`: on enter build the attribute list (`href` unless safe mode
and a potentially unsafe destination; `title` when the title is truthy) and
emit the opening tag; on exit emit `</a>`. -/
def HtmlRenderer.renderLink (r : HtmlRenderer) (node : Node)
    (attrs : List (String × String)) (entering : Bool) (st : RState) : RState :=
  if entering then
    let attrs1 :=
      if ¬ ((optGet r.options "safe").truthy ∧ potentially_unsafe node.destination = true) then
        attrs ++ [("href", escape_xml node.destination true)]
      else attrs
    let attrs2 :=
      if node.title ≠ "" then attrs1 ++ [("title", escape_xml node.title true)]
      else attrs1
    st.out (tag "a" attrs2 false)
  else
    st.out (tag "/a" [] false)

/-- `renderImage`: on enter, emit the `<img src="..." alt="` prefix only at
suppression depth 0 (empty `src` under safe mode with an unsafe destination),
then increment `disable_tags`; on exit, decrement `disable_tags` and, only
when it returns to 0, emit the optional title segment and the `" />` suffix. -/
def HtmlRenderer.renderImage (r : HtmlRenderer) (node : Node)
    (_attrs : List (String × String)) (entering : Bool) (st : RState) : RState :=
  if entering then
    let st1 :=
      if st.disable_tags = 0 then
        if (optGet r.options "safe").truthy ∧ potentially_unsafe node.destination = true then
          st.out "<img src=\"\" alt=\""
        else
          st.out ("<img src=\"" ++ escape_xml node.destination true ++ "\" alt=\"")
      else st
    ⟨st1.buf, st1.last_out, st1.disable_tags + 1⟩
  else
    let st1 : RState := ⟨st.buf, st.last_out, st.disable_tags - 1⟩
    if st1.disable_tags = 0 then
      let st2 :=
        if node.title ≠ "" then st1.out ("\" title=\"" ++ escape_xml node.title true)
        else st1
      st2.out "\" />"
    else st1

/-- `renderCode`: single-shot `<code>` + escaped literal + `</code>`. -/
def HtmlRenderer.renderCode (_r : HtmlRenderer) (node : Node)
    (_attrs : List (String × String)) (_entering : Bool) (st : RState) : RState :=
  st.out (tag "code" [] false ++ escape_xml node.literal false ++ tag "/code" [] false)

/-- `renderDocument`: `pass`. -/
def HtmlRenderer.renderDocument (_r : HtmlRenderer) (_node : Node)
    (_attrs : List (String × String)) (_entering : Bool) (st : RState) : RState :=
  st

/-- The suppression test of `renderParagraph`: the grandparent exists, is a
`List`, and its `list_data.get('tight')` is truthy. -/
def tightListGrandparent (node : Node) : Bool :=
  match node.grandparent with
  | some g => g.1 = "List" && g.2
  | none => false

/-- `renderParagraph`: entirely suppressed inside a tight list (grandparent a
tight `List`); otherwise `cr` + `<p ...>` on enter, `</p>` + `cr` on exit. -/
def HtmlRenderer.renderParagraph (_r : HtmlRenderer) (node : Node)
    (attrs : List (String × String)) (entering : Bool) (st : RState) : RState :=
  if tightListGrandparent node then st
  else if entering then st.cr.out (tag "p" attrs false)
  else (st.out (tag "/p" [] false)).cr

/-- `renderBlockQuote`. -/
def HtmlRenderer.renderBlockQuote (_r : HtmlRenderer) (_node : Node)
    (attrs : List (String × String)) (entering : Bool) (st : RState) : RState :=
  if entering then (st.cr.out (tag "blockquote" attrs false)).cr
  else (st.cr.out (tag "/blockquote" [] false)).cr

/-- `renderItem`. -/
def HtmlRenderer.renderItem (_r : HtmlRenderer) (_node : Node)
    (attrs : List (String × String)) (entering : Bool) (st : RState) : RState :=
  if entering then st.out (tag "li" attrs false)
  else (st.out (tag "/li" [] false)).cr

/-- `renderList`: `ul` for bullet lists, `ol` otherwise; a `start` attribute
when an ordered list has a start index other than 1 (`node.list_data['start']`
raising `KeyError` is modelled by `listStart : Option Int`). -/
def HtmlRenderer.renderList (_r : HtmlRenderer) (node : Node)
    (attrs : List (String × String)) (entering : Bool) (st : RState) : RState :=
  let tagname := if node.listType = "Bullet" then "ul" else "ol"
  if entering then
    let attrs1 :=
      match node.listStart with
      | some start => if start ≠ 1 then attrs ++ [("start", toString start)] else attrs
      | none => attrs
    (st.cr.out (tag tagname attrs1 false)).cr
  else
    (st.cr.out (tag ("/" ++ tagname) [] false)).cr

/-- `renderHeading`: tag name `h` + level. -/
def HtmlRenderer.renderHeading (_r : HtmlRenderer) (node : Node)
    (attrs : List (String × String)) (entering : Bool) (st : RState) : RState :=
  let tagname := "h" ++ toString node.level
  if entering then st.cr.out (tag tagname attrs false)
  else (st.out (tag ("/" ++ tagname) [] false)).cr

/-- `renderCodeBlock`: language class from the first whitespace-delimited
token of the info string, then `cr`, `<pre><code ...>`, escaped literal,
`</code></pre>`, `cr`. -/
def HtmlRenderer.renderCodeBlock (_r : HtmlRenderer) (node : Node)
    (attrs : List (String × String)) (_entering : Bool) (st : RState) : RState :=
  let info_words := if node.info ≠ "" then pySplitWs node.info else []
  let attrs1 :=
    match info_words with
    | w :: _ =>
        if 0 < w.length then attrs ++ [("class", "language-" ++ escape_xml w true)]
        else attrs
    | [] => attrs
  let st1 := st.cr.out (tag "pre" [] false ++ tag "code" attrs1 false)
  let st2 := st1.out (escape_xml node.literal false)
  ((st2.out (tag "/code" [] false ++ tag "/pre" [] false))).cr

/-- `renderHtmlBlock`: placeholder under safe mode, else the literal verbatim;
always `cr` afterwards. -/
def HtmlRenderer.renderHtmlBlock (r : HtmlRenderer) (node : Node)
    (_attrs : List (String × String)) (_entering : Bool) (st : RState) : RState :=
  (if (optGet r.options "safe").truthy then st.out "<!-- raw HTML omitted -->"
   else st.out node.literal).cr

/-- `renderCustomBlock`. -/
def HtmlRenderer.renderCustomBlock (_r : HtmlRenderer) (node : Node)
    (_attrs : List (String × String)) (entering : Bool) (st : RState) : RState :=
  let st1 := st.cr
  let st2 :=
    if entering ∧ node.on_enter ≠ "" then st1.out node.on_enter
    else if ¬ entering ∧ node.on_exit ≠ "" then st1.out node.on_exit
    else st1
  st2.cr

/-- `renderThematicBreak`. -/
def HtmlRenderer.renderThematicBreak (_r : HtmlRenderer) (_node : Node)
    (attrs : List (String × String)) (_entering : Bool) (st : RState) : RState :=
  (st.cr.out (tag "hr" attrs true)).cr

/-! ## The dispatcher and the traversal driver -/

/-- The node-type tags for which a `renderX` rendering rule exists. -/
def knownNodeType (t : String) : Bool :=
  t = "Text" || t = "Softbreak" || t = "Hardbreak" || t = "Emph" || t = "Strong" ||
  t = "HtmlInline" || t = "CustomInline" || t = "Link" || t = "Image" || t = "Code" ||
  t = "Document" || t = "Paragraph" || t = "BlockQuote" || t = "Item" || t = "List" ||
  t = "Heading" || t = "CodeBlock" || t = "HtmlBlock" || t = "CustomBlock" ||
  t = "ThematicBreak"

/-- The message of the `TypeError` raised when reflection finds a
non-handler callable (see `HtmlRenderer.dispatch`): the driver
`renderNodes(self, block)` accepts 2 positional arguments (counting `self`)
but the dispatch call site passes 5 (apostrophes of the Python message are
elided). -/
def typeErrorWrongArity : String :=
  "TypeError: renderNodes() takes 2 positional arguments but 5 were given"

/-- The dispatch of `renderNodes`: `getattr(self, 'render' + node.t)` followed
by the call `render_fn(event, node, attrs, entering)`; when `getattr` fails
the dispatcher raises `ValueError('Unknown node type {0}'.format(node.t))`,
embedded as an error carrying the message and the state at the raise.

Reflection collides with two non-handler attributes whose names also start
with `render`: for `node.t = "Nodes"` `getattr` finds the traversal driver
`renderNodes` itself, and for `node.t = ""` it finds the class-level alias
`render = renderNodes` (line 241).  In both cases `getattr` succeeds, so no
`ValueError` is raised; instead the call with four arguments hits the
two-parameter signature of `renderNodes` and raises a wrong-arity `TypeError`
(whose message names `renderNodes`, the `__name__` of the shared function
object, in both cases, and does not mention the node type). -/
def HtmlRenderer.dispatch (r : HtmlRenderer) (node : Node)
    (attrs : List (String × String)) (entering : Bool) (st : RState) :
    Except (String × RState) RState :=
  if node.t = "Text" then .ok (r.renderText node attrs entering st)
  else if node.t = "Softbreak" then .ok (r.renderSoftbreak node attrs entering st)
  else if node.t = "Hardbreak" then .ok (r.renderHardbreak node attrs entering st)
  else if node.t = "Emph" then .ok (r.renderEmph node attrs entering st)
  else if node.t = "Strong" then .ok (r.renderStrong node attrs entering st)
  else if node.t = "HtmlInline" then .ok (r.renderHtmlInline node attrs entering st)
  else if node.t = "CustomInline" then .ok (r.renderCustomInline node attrs entering st)
  else if node.t = "Link" then .ok (r.renderLink node attrs entering st)
  else if node.t = "Image" then .ok (r.renderImage node attrs entering st)
  else if node.t = "Code" then .ok (r.renderCode node attrs entering st)
  else if node.t = "Document" then .ok (r.renderDocument node attrs entering st)
  else if node.t = "Paragraph" then .ok (r.renderParagraph node attrs entering st)
  else if node.t = "BlockQuote" then .ok (r.renderBlockQuote node attrs entering st)
  else if node.t = "Item" then .ok (r.renderItem node attrs entering st)
  else if node.t = "List" then .ok (r.renderList node attrs entering st)
  else if node.t = "Heading" then .ok (r.renderHeading node attrs entering st)
  else if node.t = "CodeBlock" then .ok (r.renderCodeBlock node attrs entering st)
  else if node.t = "HtmlBlock" then .ok (r.renderHtmlBlock node attrs entering st)
  else if node.t = "CustomBlock" then .ok (r.renderCustomBlock node attrs entering st)
  else if node.t = "ThematicBreak" then .ok (r.renderThematicBreak node attrs entering st)
  else if node.t = "Nodes" then .error (typeErrorWrongArity, st)
  else if node.t = "" then .error (typeErrorWrongArity, st)
  else .error ("Unknown node type " ++ node.t, st)

/-- One iteration of the `renderNodes` event loop.  When the `sourcepos`
option is truthy and the node carries a position, the source executes
`attrs.push([...])` — but Python lists have no `push` method (that is the
JavaScript name; Python uses `append`), so an `AttributeError` is raised
before any handler runs; it is embedded as an error value (apostrophes of the
Python message are elided).  Otherwise the handler is called with the fresh
empty attribute list built for this event. -/
def HtmlRenderer.stepEvent (r : HtmlRenderer) (ev : Event) (st : RState) :
    Except (String × RState) RState :=
  if (optGet r.options "sourcepos").truthy then
    match ev.node.sourcepos with
    | some _ => .error ("AttributeError: list object has no attribute push", st)
    | none => r.dispatch ev.node [] ev.entering st
  else r.dispatch ev.node [] ev.entering st

/-- The event loop of `renderNodes`, folding `stepEvent` over the walker
events; an error aborts the loop. -/
def HtmlRenderer.runEvents (r : HtmlRenderer) : List Event → RState →
    Except (String × RState) RState
  | [], st => .ok st
  | ev :: rest, st =>
    match r.stepEvent ev st with
    | .ok st2 => r.runEvents rest st2
    | .error e => .error e

/-- `renderNodes(block)`: initialise the state, consume the walker events,
return the buffer. -/
def HtmlRenderer.renderNodes (r : HtmlRenderer) (events : List Event) :
    Except (String × RState) String :=
  match r.runEvents events initialState with
  | .ok st => .ok st.buf
  | .error e => .error e

/-- `render = renderNodes`. -/
def HtmlRenderer.render (r : HtmlRenderer) (events : List Event) :
    Except (String × RState) String :=
  r.renderNodes events

/-! ## Concrete inputs used by witnesses and counterexamples -/

/-- A renderer constructed with no options. -/
def rPlain : HtmlRenderer := HtmlRenderer.init []

/-- A renderer constructed with `safe` set to `True`. -/
def rSafe : HtmlRenderer := HtmlRenderer.init [("safe", PyVal.bool true)]

/-- A link node with a `javascript:` destination and no title. -/
def nodeJs : Node := { mkNode "Link" with destination := "javascript:alert(1)" }

/-- A matched Image enter/exit event pair. -/
def esImg : List Event := [⟨true, mkNode "Image"⟩, ⟨false, mkNode "Image"⟩]

/-- The render state reached after the Image-enter event of `esImg`. -/
def stImg : RState := ⟨"<img src=\"\" alt=\"", "<img src=\"\" alt=\"", 1⟩

/-- The event is an Image-enter event. -/
def isImageEnter (e : Event) : Bool := e.node.t = "Image" && e.entering

/-- The event is an Image-exit event. -/
def isImageExit (e : Event) : Bool := e.node.t = "Image" && !e.entering

/-- Number of Image-enter events in a walker-event sequence. -/
def imageEnters (es : List Event) : Nat := (es.filter isImageEnter).length

/-- Number of Image-exit events in a walker-event sequence. -/
def imageExits (es : List Event) : Nat := (es.filter isImageExit).length

/-! ## Helper lemmas -/

theorem isPrefixOf_iff_exists (p l : List Char) :
    p.isPrefixOf l = true ↔ ∃ t, l = p ++ t := by
  induction p generalizing l with
  | nil => simp [List.isPrefixOf]
  | cons c p ih =>
    cases l with
    | nil => simp [List.isPrefixOf]
    | cons d t =>
      simp only [List.isPrefixOf, Bool.and_eq_true, beq_iff_eq, ih]
      constructor
      · rintro ⟨rfl, u, rfl⟩
        exact ⟨u, rfl⟩
      · rintro ⟨u, hu⟩
        injection hu with h1 h2
        exact ⟨h1.symm, u, h2⟩

theorem hasSubstrL_iff (pat l : List Char) :
    hasSubstrL pat l = true ↔ ∃ a b, l = a ++ (pat ++ b) := by
  induction l with
  | nil =>
    simp only [hasSubstrL, List.isEmpty_iff]
    constructor
    · rintro rfl
      exact ⟨[], [], rfl⟩
    · rintro ⟨a, b, h⟩
      rcases List.append_eq_nil.mp h.symm with ⟨rfl, h2⟩
      rcases List.append_eq_nil.mp h2 with ⟨rfl, rfl⟩
      rfl
  | cons c rest ih =>
    simp only [hasSubstrL, Bool.or_eq_true, isPrefixOf_iff_exists, ih]
    constructor
    · rintro (⟨t, ht⟩ | ⟨a, b, h⟩)
      · exact ⟨[], t, ht⟩
      · exact ⟨c :: a, b, by simp [h]⟩
    · rintro ⟨a, b, h⟩
      cases a with
      | nil => exact Or.inl ⟨b, by simpa using h⟩
      | cons x a2 =>
        injection h with h1 h2
        exact Or.inr ⟨a2, b, h2⟩

/-! ## C1 — the Safety Filter -/

/-- C1 counterexample: the URL `"x file:y"` merely contains `file:` in a
non-leading position, so by the claim it must not be classified unsafe; the
code classifies it unsafe (the `^` anchor of `reUnsafeProtocol` binds only to
the `javascript:` alternative and `re.search` is unanchored). -/
theorem C1_counterexample :
    potentially_unsafe "x file:y" = true ∧
    strStartsWith (lowerStr "x file:y") "javascript:" = false ∧
    strStartsWith (lowerStr "x file:y") "vbscript:" = false ∧
    strStartsWith (lowerStr "x file:y") "file:" = false ∧
    strStartsWith (lowerStr "x file:y") "data:" = false := by
  decide

/-- C1 (amended): the Safety Filter classifies `u` unsafe iff `u` begins
case-insensitively with `javascript:`, or contains `vbscript:`, `file:`, or
`data:` case-insensitively anywhere, while not beginning case-insensitively
with `data:image/png`, `data:image/gif`, `data:image/jpeg`, or
`data:image/webp`. -/
theorem C1_amended_theorem (u : String) :
    potentially_unsafe u = true ↔
      (((∃ t, (lowerStr u).toList = "javascript:".toList ++ t) ∨
        (∃ a b, (lowerStr u).toList = a ++ ("vbscript:".toList ++ b)) ∨
        (∃ a b, (lowerStr u).toList = a ++ ("file:".toList ++ b)) ∨
        (∃ a b, (lowerStr u).toList = a ++ ("data:".toList ++ b))) ∧
       ¬ ((∃ t, (lowerStr u).toList = "data:image/png".toList ++ t) ∨
          (∃ t, (lowerStr u).toList = "data:image/gif".toList ++ t) ∨
          (∃ t, (lowerStr u).toList = "data:image/jpeg".toList ++ t) ∨
          (∃ t, (lowerStr u).toList = "data:image/webp".toList ++ t))) := by
  unfold potentially_unsafe searchUnsafeProtocol searchSafeDataProtocol
  simp only [Bool.and_eq_true, Bool.not_eq_true', Bool.or_eq_false_iff, Bool.or_eq_true,
    isPrefixOf_iff_exists, hasSubstrL_iff, not_or, or_assoc, and_assoc,
    ← Bool.not_eq_true]

/-! ## C2 — newline coalescing -/

/-- C2 counterexample: from a fresh state, `out("a\n")` emits text whose last
character is a newline, yet a subsequent `cr()` appends another newline
(buffer `"a\n"` becomes `"a\n\n"`), because `cr` compares the whole last
emitted string with `"\n"`, not its last character. -/
theorem C2_counterexample :
    (RState.out initialState "a\n").buf = "a\n" ∧
    (RState.cr (RState.out initialState "a\n")).buf = "a\n\n" := by
  decide

/-- C2 (amended): after `out(s)`, a subsequent `cr()` is a no-op exactly when
the whole emitted string `s` is the one-character string `"\n"`; for any other
`s` — even one ending in a newline character — `cr()` appends exactly one
newline and records `"\n"` as the last output. -/
theorem C2_amended_theorem (st : RState) (s : String) :
    (s = "\n" → RState.cr (RState.out st s) = RState.out st s) ∧
    (s ≠ "\n" →
      (RState.cr (RState.out st s)).buf = (RState.out st s).buf ++ "\n" ∧
      (RState.cr (RState.out st s)).last_out = "\n" ∧
      (RState.cr (RState.out st s)).disable_tags = (RState.out st s).disable_tags) := by
  have hlast : (RState.out st s).last_out = s := by
    rw [RState.out]
    split <;> rfl
  constructor
  · intro h
    rw [RState.cr, hlast, if_pos h]
  · intro h
    rw [RState.cr, hlast, if_neg h]
    exact ⟨rfl, rfl, rfl⟩

/-- Witness for `C2_amended_theorem` at concrete inputs. -/
theorem C2_witness :
    RState.cr (RState.out initialState "\n") = RState.out initialState "\n" ∧
    (RState.cr (RState.out initialState "ab")).buf = (RState.out initialState "ab").buf ++ "\n" :=
  ⟨(C2_amended_theorem initialState "\n").1 rfl,
   ((C2_amended_theorem initialState "ab").2 (by decide)).1⟩

/-! ## C3 — safe-mode links -/

/-- C3: entering a Link with safe mode on and a destination the Safety Filter
classifies unsafe emits an opening `a` tag built from an attribute list
without any `href` entry (only the optional `title`); entering any other Link
emits an opening tag whose attribute list holds `href` with the escaped
destination, plus `title` exactly when a title is present. -/
theorem C3_theorem (r : HtmlRenderer) (node : Node) (st : RState) :
    ((optGet r.options "safe").truthy = true ∧ potentially_unsafe node.destination = true →
      r.renderLink node [] true st =
        st.out (tag "a"
          (if node.title = "" then [] else [("title", escape_xml node.title true)]) false) ∧
      ∀ v, ("href", v) ∉
        (if node.title = "" then ([] : List (String × String))
         else [("title", escape_xml node.title true)])) ∧
    (¬ ((optGet r.options "safe").truthy = true ∧ potentially_unsafe node.destination = true) →
      r.renderLink node [] true st =
        st.out (tag "a"
          (("href", escape_xml node.destination true) ::
            (if node.title = "" then [] else [("title", escape_xml node.title true)])) false)) ∧
    (node.title ≠ "" ↔ ("title", escape_xml node.title true) ∈
      (if node.title = "" then ([] : List (String × String))
       else [("title", escape_xml node.title true)])) := by
  refine ⟨fun h => ⟨?_, ?_⟩, fun h => ?_, ?_⟩
  · rw [HtmlRenderer.renderLink, if_pos rfl, if_neg (not_not_intro h)]
    by_cases hT : node.title = "" <;> simp [hT]
  · intro v
    by_cases hT : node.title = "" <;> simp [hT]
  · rw [HtmlRenderer.renderLink, if_pos rfl, if_pos h]
    by_cases hT : node.title = "" <;> simp [hT]
  · by_cases hT : node.title = "" <;> simp [hT]

/-- Witness for `C3_theorem`: with `safe` on and destination
`"javascript:alert(1)"` (no title) the emitted opening tag is `<a>` with an
empty attribute list, and with `safe` off it carries the `href`. -/
theorem C3_witness :
    rSafe.renderLink nodeJs [] true initialState =
      initialState.out (tag "a" [] false) ∧
    rPlain.renderLink nodeJs [] true initialState =
      initialState.out (tag "a" [("href", escape_xml nodeJs.destination true)] false) := by
  constructor
  · have h := ((C3_theorem rSafe nodeJs initialState).1 (by decide)).1
    simpa using h
  · have h := (C3_theorem rPlain nodeJs initialState).2.1 (by decide)
    simpa using h

/-! ## C4 — suppression-depth invariant -/

theorem out_disable_tags (st : RState) (s : String) :
    (st.out s).disable_tags = st.disable_tags := by
  rw [RState.out]
  split <;> rfl

theorem cr_disable_tags (st : RState) :
    st.cr.disable_tags = st.disable_tags := by
  rw [RState.cr]
  split <;> rfl

theorem renderText_disable_tags (r : HtmlRenderer) (node : Node)
    (attrs : List (String × String)) (entering : Bool) (st : RState) :
    (r.renderText node attrs entering st).disable_tags = st.disable_tags := by
  simp only [HtmlRenderer.renderText]
  simp [out_disable_tags]

theorem renderSoftbreak_disable_tags (r : HtmlRenderer) (node : Node)
    (attrs : List (String × String)) (entering : Bool) (st : RState) :
    (r.renderSoftbreak node attrs entering st).disable_tags = st.disable_tags := by
  simp only [HtmlRenderer.renderSoftbreak]
  simp [out_disable_tags]

theorem renderHardbreak_disable_tags (r : HtmlRenderer) (node : Node)
    (attrs : List (String × String)) (entering : Bool) (st : RState) :
    (r.renderHardbreak node attrs entering st).disable_tags = st.disable_tags := by
  simp only [HtmlRenderer.renderHardbreak]
  simp [out_disable_tags, cr_disable_tags]

theorem renderEmph_disable_tags (r : HtmlRenderer) (node : Node)
    (attrs : List (String × String)) (entering : Bool) (st : RState) :
    (r.renderEmph node attrs entering st).disable_tags = st.disable_tags := by
  simp only [HtmlRenderer.renderEmph]
  split_ifs <;> simp [out_disable_tags]

theorem renderStrong_disable_tags (r : HtmlRenderer) (node : Node)
    (attrs : List (String × String)) (entering : Bool) (st : RState) :
    (r.renderStrong node attrs entering st).disable_tags = st.disable_tags := by
  simp only [HtmlRenderer.renderStrong]
  split_ifs <;> simp [out_disable_tags]

theorem renderHtmlInline_disable_tags (r : HtmlRenderer) (node : Node)
    (attrs : List (String × String)) (entering : Bool) (st : RState) :
    (r.renderHtmlInline node attrs entering st).disable_tags = st.disable_tags := by
  simp only [HtmlRenderer.renderHtmlInline]
  split_ifs <;> simp [out_disable_tags]

theorem renderCustomInline_disable_tags (r : HtmlRenderer) (node : Node)
    (attrs : List (String × String)) (entering : Bool) (st : RState) :
    (r.renderCustomInline node attrs entering st).disable_tags = st.disable_tags := by
  simp only [HtmlRenderer.renderCustomInline]
  split_ifs <;> simp [out_disable_tags]

theorem renderLink_disable_tags (r : HtmlRenderer) (node : Node)
    (attrs : List (String × String)) (entering : Bool) (st : RState) :
    (r.renderLink node attrs entering st).disable_tags = st.disable_tags := by
  simp only [HtmlRenderer.renderLink]
  split_ifs <;> simp [out_disable_tags]

theorem renderCode_disable_tags (r : HtmlRenderer) (node : Node)
    (attrs : List (String × String)) (entering : Bool) (st : RState) :
    (r.renderCode node attrs entering st).disable_tags = st.disable_tags := by
  simp only [HtmlRenderer.renderCode]
  simp [out_disable_tags]

theorem renderDocument_disable_tags (r : HtmlRenderer) (node : Node)
    (attrs : List (String × String)) (entering : Bool) (st : RState) :
    (r.renderDocument node attrs entering st).disable_tags = st.disable_tags := rfl

theorem renderParagraph_disable_tags (r : HtmlRenderer) (node : Node)
    (attrs : List (String × String)) (entering : Bool) (st : RState) :
    (r.renderParagraph node attrs entering st).disable_tags = st.disable_tags := by
  simp only [HtmlRenderer.renderParagraph]
  split_ifs <;> simp [out_disable_tags, cr_disable_tags]

theorem renderBlockQuote_disable_tags (r : HtmlRenderer) (node : Node)
    (attrs : List (String × String)) (entering : Bool) (st : RState) :
    (r.renderBlockQuote node attrs entering st).disable_tags = st.disable_tags := by
  simp only [HtmlRenderer.renderBlockQuote]
  split_ifs <;> simp [out_disable_tags, cr_disable_tags]

theorem renderItem_disable_tags (r : HtmlRenderer) (node : Node)
    (attrs : List (String × String)) (entering : Bool) (st : RState) :
    (r.renderItem node attrs entering st).disable_tags = st.disable_tags := by
  simp only [HtmlRenderer.renderItem]
  split_ifs <;> simp [out_disable_tags, cr_disable_tags]

theorem renderList_disable_tags (r : HtmlRenderer) (node : Node)
    (attrs : List (String × String)) (entering : Bool) (st : RState) :
    (r.renderList node attrs entering st).disable_tags = st.disable_tags := by
  simp only [HtmlRenderer.renderList]
  split_ifs <;> simp [out_disable_tags, cr_disable_tags]

theorem renderHeading_disable_tags (r : HtmlRenderer) (node : Node)
    (attrs : List (String × String)) (entering : Bool) (st : RState) :
    (r.renderHeading node attrs entering st).disable_tags = st.disable_tags := by
  simp only [HtmlRenderer.renderHeading]
  split_ifs <;> simp [out_disable_tags, cr_disable_tags]

theorem renderCodeBlock_disable_tags (r : HtmlRenderer) (node : Node)
    (attrs : List (String × String)) (entering : Bool) (st : RState) :
    (r.renderCodeBlock node attrs entering st).disable_tags = st.disable_tags := by
  simp only [HtmlRenderer.renderCodeBlock]
  split_ifs <;> simp [out_disable_tags, cr_disable_tags]

theorem renderHtmlBlock_disable_tags (r : HtmlRenderer) (node : Node)
    (attrs : List (String × String)) (entering : Bool) (st : RState) :
    (r.renderHtmlBlock node attrs entering st).disable_tags = st.disable_tags := by
  simp only [HtmlRenderer.renderHtmlBlock]
  split_ifs <;> simp [out_disable_tags, cr_disable_tags]

theorem renderCustomBlock_disable_tags (r : HtmlRenderer) (node : Node)
    (attrs : List (String × String)) (entering : Bool) (st : RState) :
    (r.renderCustomBlock node attrs entering st).disable_tags = st.disable_tags := by
  simp only [HtmlRenderer.renderCustomBlock]
  split_ifs <;> simp [out_disable_tags, cr_disable_tags]

theorem renderThematicBreak_disable_tags (r : HtmlRenderer) (node : Node)
    (attrs : List (String × String)) (entering : Bool) (st : RState) :
    (r.renderThematicBreak node attrs entering st).disable_tags = st.disable_tags := by
  simp only [HtmlRenderer.renderThematicBreak]
  simp [out_disable_tags, cr_disable_tags]

/-- `renderImage` on enter increments the suppression depth by exactly one. -/
theorem renderImage_disable_tags_enter (r : HtmlRenderer) (node : Node)
    (attrs : List (String × String)) (st : RState) :
    (r.renderImage node attrs true st).disable_tags = st.disable_tags + 1 := by
  rw [HtmlRenderer.renderImage, if_pos rfl]
  split_ifs <;> simp [out_disable_tags]

/-- `renderImage` on exit decrements the suppression depth by exactly one. -/
theorem renderImage_disable_tags_exit (r : HtmlRenderer) (node : Node)
    (attrs : List (String × String)) (st : RState) :
    (r.renderImage node attrs false st).disable_tags = st.disable_tags - 1 := by
  rw [HtmlRenderer.renderImage, if_neg (by simp)]
  simp only [apply_ite RState.disable_tags, out_disable_tags, ite_self]

/-- Every handler except `renderImage` leaves the suppression depth
unchanged. -/
theorem dispatch_disable_tags_of_ne_image (r : HtmlRenderer) (node : Node)
    (attrs : List (String × String)) (entering : Bool) (st st2 : RState)
    (hne : node.t ≠ "Image") (h : r.dispatch node attrs entering st = .ok st2) :
    st2.disable_tags = st.disable_tags := by
  rw [HtmlRenderer.dispatch] at h
  by_cases h1 : node.t = "Text"
  · rw [if_pos h1] at h
    injection h with h
    subst h
    apply renderText_disable_tags
  rw [if_neg h1] at h
  by_cases h2 : node.t = "Softbreak"
  · rw [if_pos h2] at h
    injection h with h
    subst h
    apply renderSoftbreak_disable_tags
  rw [if_neg h2] at h
  by_cases h3 : node.t = "Hardbreak"
  · rw [if_pos h3] at h
    injection h with h
    subst h
    apply renderHardbreak_disable_tags
  rw [if_neg h3] at h
  by_cases h4 : node.t = "Emph"
  · rw [if_pos h4] at h
    injection h with h
    subst h
    apply renderEmph_disable_tags
  rw [if_neg h4] at h
  by_cases h5 : node.t = "Strong"
  · rw [if_pos h5] at h
    injection h with h
    subst h
    apply renderStrong_disable_tags
  rw [if_neg h5] at h
  by_cases h6 : node.t = "HtmlInline"
  · rw [if_pos h6] at h
    injection h with h
    subst h
    apply renderHtmlInline_disable_tags
  rw [if_neg h6] at h
  by_cases h7 : node.t = "CustomInline"
  · rw [if_pos h7] at h
    injection h with h
    subst h
    apply renderCustomInline_disable_tags
  rw [if_neg h7] at h
  by_cases h8 : node.t = "Link"
  · rw [if_pos h8] at h
    injection h with h
    subst h
    apply renderLink_disable_tags
  rw [if_neg h8] at h
  by_cases h9 : node.t = "Image"
  · exact absurd h9 hne
  rw [if_neg h9] at h
  by_cases h10 : node.t = "Code"
  · rw [if_pos h10] at h
    injection h with h
    subst h
    apply renderCode_disable_tags
  rw [if_neg h10] at h
  by_cases h11 : node.t = "Document"
  · rw [if_pos h11] at h
    injection h with h
    subst h
    apply renderDocument_disable_tags
  rw [if_neg h11] at h
  by_cases h12 : node.t = "Paragraph"
  · rw [if_pos h12] at h
    injection h with h
    subst h
    apply renderParagraph_disable_tags
  rw [if_neg h12] at h
  by_cases h13 : node.t = "BlockQuote"
  · rw [if_pos h13] at h
    injection h with h
    subst h
    apply renderBlockQuote_disable_tags
  rw [if_neg h13] at h
  by_cases h14 : node.t = "Item"
  · rw [if_pos h14] at h
    injection h with h
    subst h
    apply renderItem_disable_tags
  rw [if_neg h14] at h
  by_cases h15 : node.t = "List"
  · rw [if_pos h15] at h
    injection h with h
    subst h
    apply renderList_disable_tags
  rw [if_neg h15] at h
  by_cases h16 : node.t = "Heading"
  · rw [if_pos h16] at h
    injection h with h
    subst h
    apply renderHeading_disable_tags
  rw [if_neg h16] at h
  by_cases h17 : node.t = "CodeBlock"
  · rw [if_pos h17] at h
    injection h with h
    subst h
    apply renderCodeBlock_disable_tags
  rw [if_neg h17] at h
  by_cases h18 : node.t = "HtmlBlock"
  · rw [if_pos h18] at h
    injection h with h
    subst h
    apply renderHtmlBlock_disable_tags
  rw [if_neg h18] at h
  by_cases h19 : node.t = "CustomBlock"
  · rw [if_pos h19] at h
    injection h with h
    subst h
    apply renderCustomBlock_disable_tags
  rw [if_neg h19] at h
  by_cases h20 : node.t = "ThematicBreak"
  · rw [if_pos h20] at h
    injection h with h
    subst h
    apply renderThematicBreak_disable_tags
  rw [if_neg h20] at h
  split_ifs at h

/-- Net effect of one successful event step on the suppression depth. -/
theorem stepEvent_disable_tags (r : HtmlRenderer) (ev : Event) (st st2 : RState)
    (h : r.stepEvent ev st = .ok st2) :
    st2.disable_tags = st.disable_tags
      + (if isImageEnter ev then 1 else 0) - (if isImageExit ev then 1 else 0) := by
  have hd : r.dispatch ev.node [] ev.entering st = .ok st2 := by
    rw [HtmlRenderer.stepEvent] at h
    split_ifs at h
    · cases hsp : ev.node.sourcepos with
      | some p => rw [hsp] at h; simp at h
      | none => rw [hsp] at h; exact h
    · exact h
  by_cases hImg : ev.node.t = "Image"
  · have hdi : r.renderImage ev.node [] ev.entering st = st2 := by
      rw [HtmlRenderer.dispatch] at hd
      simp only [hImg] at hd
      simp at hd
      exact hd
    cases hE : ev.entering with
    | true =>
      rw [hE] at hdi
      rw [← hdi, renderImage_disable_tags_enter]
      simp [isImageEnter, isImageExit, hImg, hE]
    | false =>
      rw [hE] at hdi
      rw [← hdi, renderImage_disable_tags_exit]
      simp [isImageEnter, isImageExit, hImg, hE]
      try omega
  · rw [dispatch_disable_tags_of_ne_image r ev.node [] ev.entering st st2 hImg hd]
    simp [isImageEnter, isImageExit, hImg]

/-- Running any successful event sequence changes the suppression depth by
(enter count − exit count). -/
theorem runEvents_disable_tags (r : HtmlRenderer) (es : List Event) (st st2 : RState)
    (h : r.runEvents es st = .ok st2) :
    st2.disable_tags = st.disable_tags + (imageEnters es : Int) - (imageExits es : Int) := by
  induction es generalizing st with
  | nil =>
    rw [HtmlRenderer.runEvents] at h
    injection h with h
    subst h
    simp [imageEnters, imageExits]
  | cons ev rest ih =>
    rw [HtmlRenderer.runEvents] at h
    cases hstep : r.stepEvent ev st with
    | error e => rw [hstep] at h; simp at h
    | ok stMid =>
      rw [hstep] at h
      have h1 := stepEvent_disable_tags r ev st stMid hstep
      have h2 := ih stMid h
      rw [h2, h1]
      by_cases hEn : isImageEnter ev = true <;> by_cases hEx : isImageExit ev = true <;>
        simp [imageEnters, imageExits, List.filter_cons, hEn, hEx] <;> omega

/-- A list without `>` contains no tag-shaped substring. -/
theorem containsTagL_of_hasGtL_false (l : List Char) (h : hasGtL l = false) :
    containsTagL l = false := by
  induction l with
  | nil => rfl
  | cons c rest ih =>
    simp only [hasGtL, List.any_cons, Bool.or_eq_false_iff] at h
    simp only [containsTagL, Bool.or_eq_false_iff, Bool.and_eq_false_iff]
    exact ⟨Or.inr h.2, ih h.2⟩

/-- The scan of `re.sub(reHtmlTag, '', ·)` leaves no tag-shaped substring,
for any scan state whose open candidate holds no `>`. -/
theorem containsTag_stripGo (l : List Char) :
    ∀ stt : Option (List Char), (∀ p, stt = some p → hasGtL p = false) →
      containsTagL (stripGo l stt) = false := by
  induction l with
  | nil =>
    intro stt hstt
    cases stt with
    | none => rfl
    | some p =>
      have hp : hasGtL p = false := hstt p rfl
      rw [stripGo]
      apply containsTagL_of_hasGtL_false
      simpa [hasGtL, List.any_reverse] using hp
  | cons c rest ih =>
    intro stt hstt
    cases stt with
    | none =>
      rw [stripGo]
      by_cases hc : c = '<'
      · rw [if_pos hc]
        exact ih (some [c]) (by rintro p ⟨rfl⟩; simp [hasGtL, hc])
      · rw [if_neg hc]
        simp only [containsTagL, Bool.or_eq_false_iff, Bool.and_eq_false_iff]
        exact ⟨Or.inl (by simpa using hc), ih none (by rintro p ⟨⟩)⟩
    | some p =>
      have hp : hasGtL p = false := hstt p rfl
      rw [stripGo]
      by_cases hc : c = '>'
      · rw [if_pos hc]
        exact ih none (by rintro p2 ⟨⟩)
      · rw [if_neg hc]
        refine ih (some (c :: p)) ?_
        rintro p2 ⟨rfl⟩
        simp only [hasGtL, List.any_cons, Bool.or_eq_false_iff]
        exact ⟨decide_eq_false hc, hp⟩

/-- C4: on every well-formed event sequence (every prefix has at least as many
Image-enter as Image-exit events), the suppression depth after any
successfully processed prefix equals the number of Image-enter events minus
the number of Image-exit events of that prefix — each Image-enter increments
it exactly once and each Image-exit decrements it exactly once — and is never
negative; moreover, while the depth is positive, every emit appends the text
with all tag-shaped substrings stripped, and the stored text contains no
tag-shaped substring. -/
theorem C4_theorem (r : HtmlRenderer) (es : List Event) (n : Nat) (st : RState)
    (hwf : ∀ k, imageExits (List.take k es) ≤ imageEnters (List.take k es))
    (hrun : r.runEvents (List.take n es) initialState = .ok st) :
    (st.disable_tags =
        (imageEnters (List.take n es) : Int) - (imageExits (List.take n es) : Int) ∧
      0 ≤ st.disable_tags) ∧
    (∀ (st2 : RState) (s : String), 0 < st2.disable_tags →
      (st2.out s).buf = st2.buf ++ stripHtmlTags s ∧
      containsTagL (stripHtmlTags s).toList = false) := by
  constructor
  · have h1 := runEvents_disable_tags r (List.take n es) initialState st hrun
    have h2 := hwf n
    simp only [initialState] at h1
    constructor
    · rw [h1]
      omega
    · rw [h1]
      omega
  · intro st2 s hpos
    constructor
    · rw [RState.out, if_pos hpos]
    · exact containsTag_stripGo s.toList none (by rintro p ⟨⟩)

/-- Witness for `C4_theorem`: the well-formed sequence `esImg` (one Image
enter, then its exit) taken after one event reaches depth 1 = 1 − 0 ≥ 0. -/
theorem C4_witness :
    stImg.disable_tags =
        (imageEnters (List.take 1 esImg) : Int) - (imageExits (List.take 1 esImg) : Int) ∧
      0 ≤ stImg.disable_tags := by
  have hwf : ∀ k, imageExits (List.take k esImg) ≤ imageEnters (List.take k esImg) := by
    intro k
    match k with
    | 0 => decide
    | 1 => decide
    | (m + 2) =>
      have hlen : esImg.length ≤ m + 2 := by
        simp [esImg]
      rw [List.take_of_length_le hlen]
      decide
  exact (C4_theorem rPlain esImg 1 stImg hwf (by rfl)).1

/-! ## C5 — unknown node types -/

/-- The event loop distributes over list append. -/
theorem runEvents_append (r : HtmlRenderer) (l1 l2 : List Event) (st : RState) :
    r.runEvents (l1 ++ l2) st =
      match r.runEvents l1 st with
      | .ok st2 => r.runEvents l2 st2
      | .error e => .error e := by
  induction l1 generalizing st with
  | nil => simp [HtmlRenderer.runEvents]
  | cons ev rest ih =>
    rw [List.cons_append]
    simp only [HtmlRenderer.runEvents]
    cases hstep : r.stepEvent ev st with
    | ok st2 => simp [hstep, ih]
    | error e => simp [hstep]

/-- Dispatch on a node type outside the 20 handlers reduces to the
reflection-failure tail of the if-chain. -/
theorem dispatch_no_handler (r : HtmlRenderer) (node : Node) (attrs : List (String × String))
    (entering : Bool) (st : RState) (h : knownNodeType node.t = false) :
    r.dispatch node attrs entering st =
      (if node.t = "Nodes" then .error (typeErrorWrongArity, st)
       else if node.t = "" then .error (typeErrorWrongArity, st)
       else .error ("Unknown node type " ++ node.t, st)) := by
  rw [HtmlRenderer.dispatch,
    if_neg (fun hEq : node.t = "Text" => by simp [knownNodeType, hEq] at h),
    if_neg (fun hEq : node.t = "Softbreak" => by simp [knownNodeType, hEq] at h),
    if_neg (fun hEq : node.t = "Hardbreak" => by simp [knownNodeType, hEq] at h),
    if_neg (fun hEq : node.t = "Emph" => by simp [knownNodeType, hEq] at h),
    if_neg (fun hEq : node.t = "Strong" => by simp [knownNodeType, hEq] at h),
    if_neg (fun hEq : node.t = "HtmlInline" => by simp [knownNodeType, hEq] at h),
    if_neg (fun hEq : node.t = "CustomInline" => by simp [knownNodeType, hEq] at h),
    if_neg (fun hEq : node.t = "Link" => by simp [knownNodeType, hEq] at h),
    if_neg (fun hEq : node.t = "Image" => by simp [knownNodeType, hEq] at h),
    if_neg (fun hEq : node.t = "Code" => by simp [knownNodeType, hEq] at h),
    if_neg (fun hEq : node.t = "Document" => by simp [knownNodeType, hEq] at h),
    if_neg (fun hEq : node.t = "Paragraph" => by simp [knownNodeType, hEq] at h),
    if_neg (fun hEq : node.t = "BlockQuote" => by simp [knownNodeType, hEq] at h),
    if_neg (fun hEq : node.t = "Item" => by simp [knownNodeType, hEq] at h),
    if_neg (fun hEq : node.t = "List" => by simp [knownNodeType, hEq] at h),
    if_neg (fun hEq : node.t = "Heading" => by simp [knownNodeType, hEq] at h),
    if_neg (fun hEq : node.t = "CodeBlock" => by simp [knownNodeType, hEq] at h),
    if_neg (fun hEq : node.t = "HtmlBlock" => by simp [knownNodeType, hEq] at h),
    if_neg (fun hEq : node.t = "CustomBlock" => by simp [knownNodeType, hEq] at h),
    if_neg (fun hEq : node.t = "ThematicBreak" => by simp [knownNodeType, hEq] at h)]

/-- Dispatch on a node type with no rendering rule that is also not one of
the two reflection collisions produces the `Unknown node type` error carrying
the untouched state. -/
theorem dispatch_unknown (r : HtmlRenderer) (node : Node) (attrs : List (String × String))
    (entering : Bool) (st : RState) (h : knownNodeType node.t = false)
    (hN : node.t ≠ "Nodes") (hE : node.t ≠ "") :
    r.dispatch node attrs entering st = .error ("Unknown node type " ++ node.t, st) := by
  rw [dispatch_no_handler r node attrs entering st h, if_neg hN, if_neg hE]

/-- Dispatch on one of the two reflection collisions (`getattr` finds
`renderNodes` for `"Nodes"`, the alias `render` for `""`) raises the
wrong-arity `TypeError`, not the `Unknown node type` `ValueError`. -/
theorem dispatch_collision (r : HtmlRenderer) (node : Node) (attrs : List (String × String))
    (entering : Bool) (st : RState) (h : node.t = "Nodes" ∨ node.t = "") :
    r.dispatch node attrs entering st = .error (typeErrorWrongArity, st) := by
  have hk : knownNodeType node.t = false := by
    rcases h with h | h <;> rw [h] <;> decide
  rw [dispatch_no_handler r node attrs entering st hk]
  rcases h with h | h
  · rw [if_pos h]
  · rw [if_neg (by rw [h]; decide : ¬ (node.t = "Nodes")), if_pos h]

/-- When the attribute-building step of the event loop does not itself fail,
a dispatch error becomes the step error unchanged. -/
theorem stepEvent_error_of_dispatch_error (r : HtmlRenderer) (bad : Event) (st1 : RState)
    (e : String × RState)
    (hattrs : (optGet r.options "sourcepos").truthy = false ∨ bad.node.sourcepos = none)
    (hd : r.dispatch bad.node [] bad.entering st1 = .error e) :
    r.stepEvent bad st1 = .error e := by
  rw [HtmlRenderer.stepEvent]
  rcases hattrs with hopt | hsp
  · rw [if_neg (by simp [hopt])]
    exact hd
  · by_cases hopt : (optGet r.options "sourcepos").truthy = true
    · rw [if_pos hopt, hsp]
      exact hd
    · rw [if_neg hopt]
      exact hd

/-- A step error after a successfully processed prefix aborts the event loop
with that error, ignoring all later events. -/
theorem runEvents_abort (r : HtmlRenderer) (good : List Event) (bad : Event)
    (rest : List Event) (st1 : RState) (e : String × RState)
    (hgood : r.runEvents good initialState = .ok st1)
    (hstep : r.stepEvent bad st1 = .error e) :
    r.runEvents (good ++ bad :: rest) initialState = .error e := by
  rw [runEvents_append, hgood]
  show r.runEvents (bad :: rest) st1 = _
  simp only [HtmlRenderer.runEvents]
  rw [hstep]

/-- C5 counterexample: the node type `Nodes` has no registered rendering rule,
yet the render call does not fail with an error identifying the unrecognized
node type — `getattr(self, 'renderNodes')` finds the traversal driver itself,
and the four-argument call raises a wrong-arity `TypeError` whose message
does not name the type. -/
theorem C5_counterexample :
    knownNodeType "Nodes" = false ∧
    rPlain.runEvents [⟨true, mkNode "Nodes"⟩] initialState =
      .error (typeErrorWrongArity, initialState) ∧
    typeErrorWrongArity ≠ "Unknown node type " ++ "Nodes" :=
  ⟨by decide, rfl, by decide⟩

/-- C5 (amended): when an event whose node type has no rendering rule is
reached (after a successfully processed prefix, and with the
attribute-building step itself not failing), the render call aborts
immediately, carrying exactly the state buffered before the faulty event and
ignoring all later events; the error identifies the unknown type
(`Unknown node type <t>`) for every such type except the two reflection
collisions `"Nodes"` and `""`, for which `getattr` finds the driver
`renderNodes` (resp. its alias `render`) and the call aborts with a
wrong-arity `TypeError` that does not name the type. -/
theorem C5_amended_theorem (r : HtmlRenderer) (good : List Event) (bad : Event)
    (rest : List Event) (st1 : RState)
    (hgood : r.runEvents good initialState = .ok st1)
    (hattrs : (optGet r.options "sourcepos").truthy = false ∨ bad.node.sourcepos = none) :
    (knownNodeType bad.node.t = false → bad.node.t ≠ "Nodes" → bad.node.t ≠ "" →
      r.runEvents (good ++ bad :: rest) initialState =
        .error ("Unknown node type " ++ bad.node.t, st1)) ∧
    ((bad.node.t = "Nodes" ∨ bad.node.t = "") →
      r.runEvents (good ++ bad :: rest) initialState =
        .error (typeErrorWrongArity, st1)) := by
  constructor
  · intro hk hN hE
    exact runEvents_abort r good bad rest st1 _ hgood
      (stepEvent_error_of_dispatch_error r bad st1 _ hattrs
        (dispatch_unknown r bad.node [] bad.entering st1 hk hN hE))
  · intro hcol
    exact runEvents_abort r good bad rest st1 _ hgood
      (stepEvent_error_of_dispatch_error r bad st1 _ hattrs
        (dispatch_collision r bad.node [] bad.entering st1 hcol))

/-- Witness for `C5_amended_theorem`: a node type `Banana` (no preceding
events) yields the Unknown-node-type error, and the collision type `Nodes`
yields the wrong-arity `TypeError`. -/
theorem C5_witness :
    rPlain.runEvents [⟨true, mkNode "Banana"⟩] initialState =
      .error ("Unknown node type Banana", initialState) ∧
    rPlain.runEvents [⟨true, mkNode "Nodes"⟩] initialState =
      .error (typeErrorWrongArity, initialState) :=
  ⟨(C5_amended_theorem rPlain [] ⟨true, mkNode "Banana"⟩ [] initialState rfl
      (Or.inl (by decide))).1 (by decide) (by decide) (by decide),
   (C5_amended_theorem rPlain [] ⟨true, mkNode "Nodes"⟩ [] initialState rfl
      (Or.inl (by decide))).2 (Or.inl (by decide))⟩

/-! ## C6 — the `sourcepos` option -/

/-- C6 is a code bug: with the `sourcepos` option enabled, rendering any node
that carries a source-position span does not attach a `data-sourcepos`
attribute — it raises immediately, because line 68 of `html.py` calls
`attrs.push(...)` and Python lists have no `push` method (the code also
concatenates the integer coordinates to strings, which would raise
`TypeError` next).  The render call errors before any handler runs. -/
theorem C6_theorem :
    (HtmlRenderer.init [("sourcepos", PyVal.bool true)]).renderNodes
        [⟨true, { mkNode "Paragraph" with sourcepos := some ((1, 1), (1, 5)) }⟩] =
      .error ("AttributeError: list object has no attribute push", initialState) := by
  rfl

/-! ## C7 — tight-list paragraph suppression -/

/-- C7: a Paragraph whose grandparent is a List with the tight flag set is
rendered with no output at all (both on enter and on exit, so no `<p>` or
`</p>` is ever emitted around its — still separately visited — children);
any other Paragraph emits coalesce-newline then `<p ...>` on enter, and
`</p>` then coalesce-newline on exit. -/
theorem C7_theorem (r : HtmlRenderer) (node : Node) (attrs : List (String × String))
    (entering : Bool) (st : RState) :
    (tightListGrandparent node = true → r.renderParagraph node attrs entering st = st) ∧
    (tightListGrandparent node = false →
      (entering = true →
        r.renderParagraph node attrs entering st = st.cr.out (tag "p" attrs false)) ∧
      (entering = false →
        r.renderParagraph node attrs entering st = (st.out (tag "/p" [] false)).cr)) := by
  constructor
  · intro h
    rw [HtmlRenderer.renderParagraph, if_pos h]
  · intro h
    constructor
    · intro hE
      subst hE
      rw [HtmlRenderer.renderParagraph, if_neg (by simp [h]), if_pos rfl]
    · intro hE
      subst hE
      rw [HtmlRenderer.renderParagraph, if_neg (by simp [h]), if_neg (by simp)]

/-- Witness for `C7_theorem`: a Paragraph under a tight List is fully
suppressed on both events; a Paragraph with no grandparent gets its `<p>`. -/
theorem C7_witness :
    rPlain.renderParagraph { mkNode "Paragraph" with grandparent := some ("List", true) }
        [] true initialState = initialState ∧
    rPlain.renderParagraph { mkNode "Paragraph" with grandparent := some ("List", true) }
        [] false initialState = initialState ∧
    rPlain.renderParagraph (mkNode "Paragraph") [] true initialState =
      initialState.cr.out (tag "p" [] false) := by
  refine ⟨?_, ?_, ?_⟩
  · exact (C7_theorem rPlain _ [] true initialState).1 (by decide)
  · exact (C7_theorem rPlain _ [] false initialState).1 (by decide)
  · exact ((C7_theorem rPlain (mkNode "Paragraph") [] true initialState).2 (by decide)).1 rfl

/-! ## C8 — the CodeBlock concrete scenario -/

/-- C8: rendering a single CodeBlock node with info string `"python extra"`
and literal `"a=1\n"` from a fresh render state produces exactly
`<pre><code class="language-python">a=1\n</code></pre>\n` — the class comes
from the first whitespace-delimited info token, the literal is escaped and
emitted unsplit, and the block is framed by newline coalescing. -/
theorem C8_theorem :
    (HtmlRenderer.init []).renderNodes
        [⟨true, { mkNode "CodeBlock" with info := "python extra", literal := "a=1\n" }⟩] =
      .ok "<pre><code class=\"language-python\">a=1\n</code></pre>\n" := by
  rfl

/-! ## C9 — option validation at construction time -/

/-- C9 counterexample: constructing with the recognized `safe` option holding
a non-boolean value (the string `"yes"`) is not rejected — the constructor
returns a renderer storing the mapping verbatim, and rendering then coerces
the value by truthiness (an HtmlInline literal is replaced by the raw-HTML
placeholder exactly as with `safe = True`). -/
theorem C9_counterexample :
    HtmlRenderer.init [("safe", PyVal.str "yes")] = ⟨"\n", [("safe", PyVal.str "yes")]⟩ ∧
    (HtmlRenderer.init [("safe", PyVal.str "yes")]).renderNodes
        [⟨true, { mkNode "HtmlInline" with literal := "<span>" }⟩] =
      .ok "<!-- raw HTML omitted -->" :=
  ⟨rfl, rfl⟩

/-- C9 (amended): construction never validates or rejects the options
mapping — any mapping, including wrong-shaped values for recognized options,
is stored as-is — and a wrong-shaped value is silently coerced by Python
truthiness when read during rendering (e.g. for an HtmlInline node, any
truthy `safe` value triggers the placeholder and any falsy one emits the
literal). -/
theorem C9_amended_theorem (opts : List (String × PyVal)) (node : Node) (st : RState) :
    HtmlRenderer.init opts = ⟨"\n", opts⟩ ∧
    (node.t = "HtmlInline" →
      ((optGet opts "safe").truthy = true →
        (HtmlRenderer.init opts).dispatch node [] true st =
          .ok (st.out "<!-- raw HTML omitted -->")) ∧
      ((optGet opts "safe").truthy = false →
        (HtmlRenderer.init opts).dispatch node [] true st = .ok (st.out node.literal))) := by
  refine ⟨rfl, fun ht => ⟨fun hs => ?_, fun hs => ?_⟩⟩
  · rw [HtmlRenderer.dispatch,
      if_neg (fun hEq : node.t = "Text" => by simp [ht] at hEq),
      if_neg (fun hEq : node.t = "Softbreak" => by simp [ht] at hEq),
      if_neg (fun hEq : node.t = "Hardbreak" => by simp [ht] at hEq),
      if_neg (fun hEq : node.t = "Emph" => by simp [ht] at hEq),
      if_neg (fun hEq : node.t = "Strong" => by simp [ht] at hEq),
      if_pos ht, HtmlRenderer.renderHtmlInline]
    simp only [HtmlRenderer.init]
    rw [if_pos hs]
  · rw [HtmlRenderer.dispatch,
      if_neg (fun hEq : node.t = "Text" => by simp [ht] at hEq),
      if_neg (fun hEq : node.t = "Softbreak" => by simp [ht] at hEq),
      if_neg (fun hEq : node.t = "Hardbreak" => by simp [ht] at hEq),
      if_neg (fun hEq : node.t = "Emph" => by simp [ht] at hEq),
      if_neg (fun hEq : node.t = "Strong" => by simp [ht] at hEq),
      if_pos ht, HtmlRenderer.renderHtmlInline]
    simp only [HtmlRenderer.init]
    rw [if_neg (by simp [hs])]

/-- Witness for `C9_amended_theorem` at the wrong-shaped option value
`safe = "yes"`. -/
theorem C9_witness :
    HtmlRenderer.init [("safe", PyVal.str "yes")] = ⟨"\n", [("safe", PyVal.str "yes")]⟩ ∧
    (HtmlRenderer.init [("safe", PyVal.str "yes")]).dispatch
        { mkNode "HtmlInline" with literal := "<span>" } [] true initialState =
      .ok (initialState.out "<!-- raw HTML omitted -->") :=
  ⟨(C9_amended_theorem [("safe", PyVal.str "yes")]
      { mkNode "HtmlInline" with literal := "<span>" } initialState).1,
   ((C9_amended_theorem [("safe", PyVal.str "yes")]
      { mkNode "HtmlInline" with literal := "<span>" } initialState).2 (by decide)).1 (by decide)⟩

/-! ## C10 — nested images -/

/-- C10: an Image enter event reached while the suppression depth is already
positive (i.e. the node is nested inside another Image's alt content) emits
nothing — the state is unchanged except that the depth is incremented — and
the matching exit event (where the depth before decrement is still above one)
also emits nothing, only decrementing the depth; so neither the
`<img src="..." alt="` prefix nor the title segment and `" />` suffix is
produced for an inner Image. -/
theorem C10_theorem (r : HtmlRenderer) (node : Node) (st : RState) :
    (0 < st.disable_tags →
      r.renderImage node [] true st = ⟨st.buf, st.last_out, st.disable_tags + 1⟩) ∧
    (1 < st.disable_tags →
      r.renderImage node [] false st = ⟨st.buf, st.last_out, st.disable_tags - 1⟩) := by
  constructor
  · intro h
    rw [HtmlRenderer.renderImage, if_pos rfl, if_neg (by omega)]
  · intro h
    rw [HtmlRenderer.renderImage, if_neg (by simp)]
    have hcond : ¬ ((⟨st.buf, st.last_out, st.disable_tags - 1⟩ : RState).disable_tags = 0) := by
      show ¬ (st.disable_tags - 1 = 0)
      omega
    rw [if_neg hcond]

/-- Witness for `C10_theorem` at suppression depth 2. -/
theorem C10_witness :
    rPlain.renderImage (mkNode "Image") [] true ⟨"b", "x", 2⟩ = ⟨"b", "x", 3⟩ ∧
    rPlain.renderImage (mkNode "Image") [] false ⟨"b", "x", 2⟩ = ⟨"b", "x", 1⟩ := by
  constructor
  · have h := (C10_theorem rPlain (mkNode "Image") ⟨"b", "x", 2⟩).1 (by decide)
    simpa using h
  · have h := (C10_theorem rPlain (mkNode "Image") ⟨"b", "x", 2⟩).2 (by decide)
    simpa using h

end CMark
